import Mathlib

/-!
Verification of the QR-code generator (src/app/qr/page.tsx and src/app/page.tsx).

The development shallowly embeds the canvas composition core of the page:
the QR symbol encoding options handed to the qrcode library, the logo
compositing in createQRCodeImage, the layout arithmetic of createQRCanvas,
the two exporters downloadAsImage / downloadAsPDF, and the renderability
guard of the QRContent component.  Browser-side effects (image decoding,
asset loading, 2d-context acquisition) are modelled by an explicit
environment of outcomes, and drawing is modelled as the list of draw calls
issued on the canvas, with their exact geometry in ℚ.
-/

namespace QRGen

/-- Error-correction levels of the QR standard (L < M < Q < H). -/
inductive ECLevel
  | L
  | M
  | Q
  | H
  deriving DecidableEq

/-- Options record accepted by QRCode.toDataURL of the qrcode npm library.
Fields mirror the options object literal built at src/app/qr/page.tsx lines
159-166; `errorCorrectionLevel` is `none` when the key is absent from the
object literal. -/
structure QREncodeOptions where
  width : ℚ
  margin : ℕ
  dark : String
  light : String
  errorCorrectionLevel : Option ECLevel
  deriving DecidableEq

/-- Modelled from the documentation of the external qrcode npm library (the
library itself is not part of this repository): when the
errorCorrectionLevel option is omitted, the library applies its documented
default, level M ("medium"). -/
def qrcodeDefaultECLevel : ECLevel := ECLevel.M

/-- Error-correction level that effectively applies for a given options
record: the explicit option if present, otherwise the library default. -/
def effectiveECLevel (o : QREncodeOptions) : ECLevel :=
  o.errorCorrectionLevel.getD qrcodeDefaultECLevel

/-- Options object passed to QRCode.toDataURL by createQRCodeImage
(src/app/qr/page.tsx lines 157-166): width = requested size, margin 1,
dark "#000000", light "#FFFFFF", and no errorCorrectionLevel key. -/
def exportQROptions (size : ℚ) : QREncodeOptions :=
  ⟨size, 1, "#000000", "#FFFFFF", none⟩

/-- Error-correction level of the on-screen preview: the CustomQRCode
component renders QRCodeSVG with level "H" (src/app/qr/page.tsx line 433). -/
def previewQRLevel : ECLevel := ECLevel.H

/-- Identity of an image drawn onto a canvas. -/
inductive ImgTag
  | qrSymbol (payload : String)
  | appLogo
  | officeLogo
  | mainQR (payload : String)
  | licenseQR (payload : String)
  deriving DecidableEq

/-- A drawing call issued on a 2d canvas context, with its geometry. -/
inductive DrawOp
  | fillRect (x y w h : ℚ) (color : String)
  | drawImage (tag : ImgTag) (x y w h : ℚ)
  | fillText (text : String) (x y : ℚ) (fontSize : ℕ) (weight : String) (align : String)
  | roundRect (x y w h radius : ℚ) (color : String)
  deriving DecidableEq

/-- Result of createQRCodeImage: a square image of edge `size`, the encoder
options its QR symbol was generated with, and the draw calls whose pixels it
holds. -/
structure QRImage where
  size : ℚ
  encOpts : QREncodeOptions
  ops : List DrawOp
  deriving DecidableEq

/-- Errors with which the composition promises reject. -/
inductive CanvasErr
  | noData
  | noContext
  | encode (payload : String)
  | qrImgLoad
  | finalImgLoad
  | officeLogoLoad
  deriving DecidableEq

/-- Outcomes of the external, browser-side steps the composition code
awaits: 2d-context acquisition, QR encoding per payload, decoding of the
encoder's data URL, the application logo asset load, re-decoding the small
canvas into the final image, and decoding of the office logo payload. -/
structure Env where
  ctxOk : Bool
  qrEncodeOk : String → Bool
  qrImgDecodeOk : Bool
  appLogoLoads : Bool
  finalImgDecodeOk : Bool
  officeLogoDecodes : Bool

/-- The QRData record stored by the input form and read by the QR page
(src/app/qr/page.tsx lines 26-31). -/
structure QRData where
  details : String
  license : String
  officeName : String
  officeLogo : String
  deriving DecidableEq

/-- Caption above the office name ("the brokering office"). -/
def officeCaption : String := "المكتب الوسيط"

/-- Caption under the details QR ("property details and property owner"). -/
def mainCaption : String := "تفاصيل العقار ومالك العقار"

/-- Caption of the license panel ("advertising license from the real-estate authority"). -/
def licenseCaption : String := "رخصة الإعلان من هيئة العقار"

/-- Alert shown by both exporters when no record is available. -/
def noDataAlert : String := "لا توجد بيانات متاحة للتحميل"

/-- Alert shown by downloadAsImage when composition throws. -/
def imageErrorAlert : String := "حدث خطأ أثناء حفظ الصورة"

/-- Alert shown by downloadAsPDF when composition throws. -/
def pdfErrorAlert : String := "حدث خطأ أثناء حفظ PDF"

/-- createQRCodeImage (src/app/qr/page.tsx lines 149-274): encodes `value`
with the options of `exportQROptions size`, draws the QR symbol on a fresh
size×size canvas, and if `showLogo` draws a centred white rounded badge of
side size/5 (corner radius 0.2 of the badge side) and, when the application
logo asset loads, the logo inside the badge inset by a 0.08 padding on each
side; if the asset fails to load the badge is kept and the logo is skipped.
The canvas is finally re-decoded into the resolved image. -/
def createQRCodeImage (env : Env) (value : String) (size : ℚ) (showLogo : Bool) :
    Except CanvasErr QRImage :=
  if env.qrEncodeOk value = false then Except.error (CanvasErr.encode value)
  else if env.qrImgDecodeOk = false then Except.error CanvasErr.qrImgLoad
  else
    let baseOps : List DrawOp := [DrawOp.drawImage (ImgTag.qrSymbol value) 0 0 size size]
    if showLogo then
      let logoContainerSize := size / 5
      let centerX := size / 2
      let centerY := size / 2
      let borderRadius := logoContainerSize * (2 / 10)
      let badged := baseOps ++
        [DrawOp.roundRect (centerX - logoContainerSize / 2) (centerY - logoContainerSize / 2)
          logoContainerSize logoContainerSize borderRadius "#FFFFFF"]
      let padding := logoContainerSize * (8 / 100)
      let logoAreaSize := logoContainerSize - padding * 2
      if env.appLogoLoads then
        if env.finalImgDecodeOk then
          Except.ok ⟨size, exportQROptions size, badged ++
            [DrawOp.drawImage ImgTag.appLogo (centerX - logoAreaSize / 2)
              (centerY - logoAreaSize / 2) logoAreaSize logoAreaSize]⟩
        else Except.error CanvasErr.finalImgLoad
      else
        if env.finalImgDecodeOk then Except.ok ⟨size, exportQROptions size, badged⟩
        else Except.error CanvasErr.finalImgLoad
    else
      if env.finalImgDecodeOk then Except.ok ⟨size, exportQROptions size, baseOps⟩
      else Except.error CanvasErr.finalImgLoad

/-- Office branding block of createQRCanvas (src/app/qr/page.tsx lines
327-365): starting from the top margin cursor at 100, draws the office logo
(120×120, centred, cursor advanced by 120 + 30) when officeLogo is
non-empty — rejecting if its payload does not decode — then the caption and
the office name (cursor advanced by 40 and then 80) when officeName is
non-empty.  Returns the draw calls and the cursor left for the details QR. -/
def brandingBlock (env : Env) (d : QRData) : Except CanvasErr (List DrawOp × ℚ) :=
  if d.officeName ≠ "" ∨ d.officeLogo ≠ "" then
    match (if d.officeLogo ≠ "" then
             (if env.officeLogoDecodes then
                Except.ok ([DrawOp.drawImage ImgTag.officeLogo (1200 / 2 - 120 / 2) 100 120 120],
                  (100 : ℚ) + 120 + 30)
              else Except.error CanvasErr.officeLogoLoad)
           else Except.ok ([], (100 : ℚ))) with
    | Except.error e => Except.error e
    | Except.ok (ops, y) =>
        if d.officeName ≠ "" then
          Except.ok (ops ++
            [DrawOp.fillText officeCaption (1200 / 2) y 32 "bold" "center",
             DrawOp.fillText d.officeName (1200 / 2) (y + 40) 28 "normal" "center"],
            y + 40 + 80)
        else Except.ok (ops, y)
  else Except.ok ([], (100 : ℚ))

/-- Edge length of the details QR: Math.floor(width * 0.75) with width 1200
(src/app/qr/page.tsx line 368). -/
def mainQRSizeQ : ℚ := ((⌊(1200 : ℚ) * (75 / 100)⌋ : ℤ) : ℚ)

/-- The composed print canvas: its dimensions, the draw calls issued on it,
and the two QR images composed into it. -/
structure Canvas where
  width : ℚ
  height : ℚ
  ops : List DrawOp
  mainQR : QRImage
  licenseQR : QRImage
  deriving DecidableEq

/-- createQRCanvas (src/app/qr/page.tsx lines 304-414): 1200×1600 canvas,
white background, office branding block, details QR of side
Math.floor(1200 × 0.75) centred horizontally with logo, caption, shaded
license panel (inset 50 on each side, 200 high) containing the 150×150
license QR without logo and the right-aligned license caption.  Any error
of an awaited step rejects the whole promise. -/
def createQRCanvas (env : Env) (qrData : Option QRData) : Except CanvasErr Canvas :=
  match qrData with
  | none => Except.error CanvasErr.noData
  | some d =>
    if env.ctxOk = false then Except.error CanvasErr.noContext
    else
      match brandingBlock env d with
      | Except.error e => Except.error e
      | Except.ok (brandOps, y1) =>
        match createQRCodeImage env d.details mainQRSizeQ true with
        | Except.error e => Except.error e
        | Except.ok mainImg =>
          match createQRCodeImage env d.license 150 false with
          | Except.error e => Except.error e
          | Except.ok licImg =>
            Except.ok ⟨1200, 1600,
              DrawOp.fillRect 0 0 1200 1600 "#ffffff" :: brandOps ++
                [DrawOp.drawImage (ImgTag.mainQR d.details) (1200 / 2 - mainQRSizeQ / 2) y1
                   mainQRSizeQ mainQRSizeQ,
                 DrawOp.fillText mainCaption (1200 / 2) (y1 + mainQRSizeQ + 50) 32 "bold" "center",
                 DrawOp.fillRect 50 (y1 + mainQRSizeQ + 50 + 80 + 30) (1200 - 100) 200 "#f8f9fa",
                 DrawOp.drawImage (ImgTag.licenseQR d.license) 150
                   (y1 + mainQRSizeQ + 50 + 80 + 30 + 200 / 2 - 75) 150 150,
                 DrawOp.fillText licenseCaption (1200 - 150)
                   (y1 + mainQRSizeQ + 50 + 80 + 30 + 200 / 2) 28 "bold" "right"],
              mainImg, licImg⟩

/-- Observable outcome of one exporter call: the alert raised if any, the
extension of the file downloaded if any, the image placement passed to
pdf.addImage for the PDF exporter, and the busy flag after the call
(setIsDownloading in the finally block). -/
structure ExportResult where
  alerted : Option String
  downloaded : Option String
  placement : Option (ℚ × ℚ × ℚ × ℚ)
  busyAfter : String
  deriving DecidableEq

/-- downloadAsImage (src/app/qr/page.tsx lines 74-96): alerts when no record
is available; otherwise composes the canvas, downloads it as PNG on
success, alerts on failure, and always clears the busy flag. -/
def downloadAsImage (env : Env) (qrData : Option QRData) : ExportResult :=
  match qrData with
  | none => ⟨some noDataAlert, none, none, ""⟩
  | some _ =>
    match createQRCanvas env qrData with
    | Except.ok _ => ⟨none, some "png", none, ""⟩
    | Except.error _ => ⟨some imageErrorAlert, none, none, ""⟩

/-- Placement arithmetic of downloadAsPDF (src/app/qr/page.tsx lines
120-130): uniform ratio min(pageW/imgW, pageH/imgH) × 0.95, scaled size,
and the centring offsets. -/
def pdfPlacement (pageW pageH imgW imgH : ℚ) : ℚ × ℚ × ℚ × ℚ :=
  let ratio := min (pageW / imgW) (pageH / imgH) * (95 / 100)
  let w := imgW * ratio
  let h := imgH * ratio
  ((pageW - w) / 2, (pageH - h) / 2, w, h)

/-- Width in millimetres of the portrait A4 page the PDF exporter creates. -/
def a4WidthMm : ℚ := 210

/-- Height in millimetres of the portrait A4 page the PDF exporter creates. -/
def a4HeightMm : ℚ := 297

/-- downloadAsPDF (src/app/qr/page.tsx lines 102-140): alerts when no
record is available; otherwise composes the canvas, embeds it on a single
A4 page at the pdfPlacement position on success, alerts on failure, and
always clears the busy flag. -/
def downloadAsPDF (env : Env) (qrData : Option QRData) : ExportResult :=
  match qrData with
  | none => ⟨some noDataAlert, none, none, ""⟩
  | some _ =>
    match createQRCanvas env qrData with
    | Except.ok c =>
        ⟨none, some "pdf", some (pdfPlacement a4WidthMm a4HeightMm c.width c.height), ""⟩
    | Except.error _ => ⟨some pdfErrorAlert, none, none, ""⟩

/-- Renderability of the stored record: the guard !qrData?.details ||
!qrData?.license of QRContent (src/app/qr/page.tsx line 469), negated. -/
def renderable : Option QRData → Bool
  | none => false
  | some d => !(d.details == "") && !(d.license == "")

/-- The three mutually exclusive screens QRContent can render. -/
inductive View
  | loading
  | incompleteData
  | main
  deriving DecidableEq

/-- Screen selection of QRContent (src/app/qr/page.tsx lines 460-505): the
spinner while loading, the incomplete-data card when the record fails the
renderability guard, the main screen with the download buttons otherwise. -/
def qrContentView (isLoading : Bool) (qrData : Option QRData) : View :=
  if isLoading then View.loading
  else if renderable qrData = false then View.incompleteData
  else View.main

/-- One page-level export attempt: the download handlers exist only on the
main screen, so an export (and with it any call into createQRCanvas) can
happen only when qrContentView selects View.main. -/
def pageExport (env : Env) (isLoading : Bool) (qrData : Option QRData) (asPdf : Bool) :
    Option ExportResult :=
  if qrContentView isLoading qrData = View.main then
    some (if asPdf then downloadAsPDF env qrData else downloadAsImage env qrData)
  else none

/-- Vertical offset at which the details QR is drawn, as a function of the
record's branding fields: top margin 100, plus 120 + 30 when the office
logo is drawn, plus 40 + 80 when the office name lines are drawn. -/
def detailsQRy (d : QRData) : ℚ :=
  100 + (if d.officeLogo ≠ "" then 120 + 30 else 0) + (if d.officeName ≠ "" then 40 + 80 else 0)

/-- Position of a draw call (its x and y coordinates). -/
def opGeom : DrawOp → ℚ × ℚ
  | DrawOp.fillRect x y _ _ _ => (x, y)
  | DrawOp.drawImage _ x y _ _ => (x, y)
  | DrawOp.fillText _ x y _ _ _ => (x, y)
  | DrawOp.roundRect x y _ _ _ _ => (x, y)

/-- Environment in which every awaited browser step succeeds. -/
def envAllOk : Env := ⟨true, fun _ => true, true, true, true, true⟩

/-- Environment in which only the application logo asset fails to load. -/
def envNoAppLogo : Env := ⟨true, fun _ => true, true, false, true, true⟩

/-- Environment in which only the office logo payload fails to decode. -/
def envOfficeLogoBad : Env := ⟨true, fun _ => true, true, true, true, false⟩

/-- Environment in which QR encoding fails for every payload. -/
def envEncodeFails : Env := ⟨true, fun _ => false, true, true, true, true⟩

/-- A record with both URLs and no branding. -/
def recPlain : QRData := ⟨"https://example.com/a", "https://example.com/b", "", ""⟩

/-- A second no-branding record with different URLs. -/
def recPlainB : QRData := ⟨"https://example.com/c", "https://example.com/d", "", ""⟩

/-- A record with both URLs, an office name and an embedded office logo. -/
def recFull : QRData :=
  ⟨"https://example.com/a", "https://example.com/b", "مكتب النور",
    "data:image/png;base64,iVBORw0KGgo"⟩

/-- A record whose office logo payload is present but not decodable as an
image. -/
def recBadLogo : QRData :=
  ⟨"https://example.com/a", "https://example.com/b", "", "data:image/png;base64,@@@"⟩

/-- A record whose details URL is empty. -/
def recNoDetails : QRData := ⟨"", "https://example.com/b", "", ""⟩

/-- The details QR edge length evaluates to 900. -/
theorem mainQRSizeQ_eq : mainQRSizeQ = 900 := by norm_num [mainQRSizeQ]

/-- A successful call of the office branding block yields exactly the draw
calls of the present branding elements and leaves the cursor at
detailsQRy. -/
theorem brandingBlock_ok (env : Env) (d : QRData) (brandOps : List DrawOp) (y : ℚ)
    (h : brandingBlock env d = Except.ok (brandOps, y)) :
    y = detailsQRy d ∧
    brandOps =
      (if d.officeLogo ≠ "" then
        [DrawOp.drawImage ImgTag.officeLogo (1200 / 2 - 120 / 2) 100 120 120] else []) ++
      (if d.officeName ≠ "" then
        [DrawOp.fillText officeCaption (1200 / 2)
           (100 + (if d.officeLogo ≠ "" then 150 else 0)) 32 "bold" "center",
         DrawOp.fillText d.officeName (1200 / 2)
           (100 + (if d.officeLogo ≠ "" then 150 else 0) + 40) 28 "normal" "center"]
       else []) ∧
    (d.officeLogo ≠ "" → env.officeLogoDecodes = true) := by
  by_cases hl : d.officeLogo = ""
  · by_cases hn : d.officeName = ""
    · simp [brandingBlock, hl, hn] at h
      obtain ⟨h1, h2⟩ := h
      subst h1
      simp [detailsQRy, hl, hn, ← h2]
    · simp [brandingBlock, hl, hn] at h
      obtain ⟨h1, h2⟩ := h
      subst h1
      refine ⟨?_, ?_, fun hc => absurd hl hc⟩
      · rw [← h2, detailsQRy]
        simp [hl, hn]
        try norm_num
      · simp [hl, hn]
        try norm_num
  · by_cases hd : env.officeLogoDecodes = true
    · by_cases hn : d.officeName = ""
      · simp [brandingBlock, hl, hn, hd] at h
        obtain ⟨h1, h2⟩ := h
        subst h1
        refine ⟨?_, ?_, fun _ => hd⟩
        · rw [← h2, detailsQRy]
          simp [hl, hn]
          try norm_num
        · simp [hl, hn]
          try norm_num
      · simp [brandingBlock, hl, hn, hd] at h
        obtain ⟨h1, h2⟩ := h
        subst h1
        refine ⟨?_, ?_, fun _ => hd⟩
        · rw [← h2, detailsQRy]
          simp [hl, hn]
          try norm_num
        · simp [hl, hn]
          try norm_num
    · have hd2 : env.officeLogoDecodes = false := by
        cases hdd : env.officeLogoDecodes
        · rfl
        · exact absurd hdd hd
      simp [brandingBlock, hl, hd2] at h

/-- Inversion of a successful canvas composition: the branding block and
both QR image constructions succeeded, and the canvas is exactly the
1200×1600 surface with the layout's draw calls at the cursor positions. -/
theorem createQRCanvas_ok (env : Env) (d : QRData) (c : Canvas)
    (h : createQRCanvas env (some d) = Except.ok c) :
    ∃ brandOps y1,
      brandingBlock env d = Except.ok (brandOps, y1) ∧
      createQRCodeImage env d.details mainQRSizeQ true = Except.ok c.mainQR ∧
      createQRCodeImage env d.license 150 false = Except.ok c.licenseQR ∧
      c.width = 1200 ∧ c.height = 1600 ∧
      c.ops = DrawOp.fillRect 0 0 1200 1600 "#ffffff" :: brandOps ++
        [DrawOp.drawImage (ImgTag.mainQR d.details) (1200 / 2 - mainQRSizeQ / 2) y1
           mainQRSizeQ mainQRSizeQ,
         DrawOp.fillText mainCaption (1200 / 2) (y1 + mainQRSizeQ + 50) 32 "bold" "center",
         DrawOp.fillRect 50 (y1 + mainQRSizeQ + 50 + 80 + 30) (1200 - 100) 200 "#f8f9fa",
         DrawOp.drawImage (ImgTag.licenseQR d.license) 150
           (y1 + mainQRSizeQ + 50 + 80 + 30 + 200 / 2 - 75) 150 150,
         DrawOp.fillText licenseCaption (1200 - 150)
           (y1 + mainQRSizeQ + 50 + 80 + 30 + 200 / 2) 28 "bold" "right"] := by
  rw [show createQRCanvas env (some d) =
      (if env.ctxOk = false then Except.error CanvasErr.noContext
       else
        match brandingBlock env d with
        | Except.error e => Except.error e
        | Except.ok (brandOps, y1) =>
          match createQRCodeImage env d.details mainQRSizeQ true with
          | Except.error e => Except.error e
          | Except.ok mainImg =>
            match createQRCodeImage env d.license 150 false with
            | Except.error e => Except.error e
            | Except.ok licImg =>
              Except.ok ⟨1200, 1600,
                DrawOp.fillRect 0 0 1200 1600 "#ffffff" :: brandOps ++
                  [DrawOp.drawImage (ImgTag.mainQR d.details) (1200 / 2 - mainQRSizeQ / 2) y1
                     mainQRSizeQ mainQRSizeQ,
                   DrawOp.fillText mainCaption (1200 / 2) (y1 + mainQRSizeQ + 50) 32 "bold" "center",
                   DrawOp.fillRect 50 (y1 + mainQRSizeQ + 50 + 80 + 30) (1200 - 100) 200 "#f8f9fa",
                   DrawOp.drawImage (ImgTag.licenseQR d.license) 150
                     (y1 + mainQRSizeQ + 50 + 80 + 30 + 200 / 2 - 75) 150 150,
                   DrawOp.fillText licenseCaption (1200 - 150)
                     (y1 + mainQRSizeQ + 50 + 80 + 30 + 200 / 2) 28 "bold" "right"],
                mainImg, licImg⟩) from rfl] at h
  by_cases hctx : env.ctxOk = false
  · simp [hctx] at h
  · rw [if_neg hctx] at h
    cases hb : brandingBlock env d with
    | error e => rw [hb] at h; exact absurd h (by simp)
    | ok p =>
      obtain ⟨brandOps, y1⟩ := p
      rw [hb] at h
      cases hm : createQRCodeImage env d.details mainQRSizeQ true with
      | error e => rw [hm] at h; exact absurd h (by simp)
      | ok mainImg =>
        rw [hm] at h
        cases hlq : createQRCodeImage env d.license 150 false with
        | error e => rw [hlq] at h; exact absurd h (by simp)
        | ok licImg =>
          rw [hlq] at h
          rw [Except.ok.injEq] at h
          subst h
          exact ⟨brandOps, y1, rfl, rfl, rfl, rfl, rfl, rfl⟩

/-- A QR image built without the logo overlay is exactly the bare QR
symbol: no badge, no application logo. -/
theorem createQRCodeImage_noLogo (env : Env) (v : String) (s : ℚ) (img : QRImage)
    (h : createQRCodeImage env v s false = Except.ok img) :
    img = ⟨s, exportQROptions s, [DrawOp.drawImage (ImgTag.qrSymbol v) 0 0 s s]⟩ := by
  unfold createQRCodeImage at h
  by_cases h1 : env.qrEncodeOk v = false
  · simp [h1] at h
  · rw [if_neg h1] at h
    by_cases h2 : env.qrImgDecodeOk = false
    · simp [h2] at h
    · rw [if_neg h2] at h
      by_cases h3 : env.finalImgDecodeOk
      · simp [h3] at h
        exact h.symm
      · simp [h3] at h

/-- Unfolding equation of createQRCanvas on a present record. -/
theorem createQRCanvas_some (env : Env) (d : QRData) :
    createQRCanvas env (some d) =
      (if env.ctxOk = false then Except.error CanvasErr.noContext
       else
        match brandingBlock env d with
        | Except.error e => Except.error e
        | Except.ok (brandOps, y1) =>
          match createQRCodeImage env d.details mainQRSizeQ true with
          | Except.error e => Except.error e
          | Except.ok mainImg =>
            match createQRCodeImage env d.license 150 false with
            | Except.error e => Except.error e
            | Except.ok licImg =>
              Except.ok ⟨1200, 1600,
                DrawOp.fillRect 0 0 1200 1600 "#ffffff" :: brandOps ++
                  [DrawOp.drawImage (ImgTag.mainQR d.details) (1200 / 2 - mainQRSizeQ / 2) y1
                     mainQRSizeQ mainQRSizeQ,
                   DrawOp.fillText mainCaption (1200 / 2) (y1 + mainQRSizeQ + 50) 32 "bold" "center",
                   DrawOp.fillRect 50 (y1 + mainQRSizeQ + 50 + 80 + 30) (1200 - 100) 200 "#f8f9fa",
                   DrawOp.drawImage (ImgTag.licenseQR d.license) 150
                     (y1 + mainQRSizeQ + 50 + 80 + 30 + 200 / 2 - 75) 150 150,
                   DrawOp.fillText licenseCaption (1200 - 150)
                     (y1 + mainQRSizeQ + 50 + 80 + 30 + 200 / 2) 28 "bold" "right"],
                mainImg, licImg⟩) := rfl

/-- The details QR image built by the export path for payload `v` in a
fully succeeding environment. -/
def mainQRImgFor (v : String) : QRImage :=
  ⟨mainQRSizeQ, exportQROptions mainQRSizeQ,
    [DrawOp.drawImage (ImgTag.qrSymbol v) 0 0 mainQRSizeQ mainQRSizeQ,
     DrawOp.roundRect (mainQRSizeQ / 2 - mainQRSizeQ / 5 / 2)
       (mainQRSizeQ / 2 - mainQRSizeQ / 5 / 2) (mainQRSizeQ / 5) (mainQRSizeQ / 5)
       (mainQRSizeQ / 5 * (2 / 10)) "#FFFFFF",
     DrawOp.drawImage ImgTag.appLogo
       (mainQRSizeQ / 2 - (mainQRSizeQ / 5 - mainQRSizeQ / 5 * (8 / 100) * 2) / 2)
       (mainQRSizeQ / 2 - (mainQRSizeQ / 5 - mainQRSizeQ / 5 * (8 / 100) * 2) / 2)
       (mainQRSizeQ / 5 - mainQRSizeQ / 5 * (8 / 100) * 2)
       (mainQRSizeQ / 5 - mainQRSizeQ / 5 * (8 / 100) * 2)]⟩

/-- The license QR image built by the export path for payload `v`. -/
def licQRImgFor (v : String) : QRImage :=
  ⟨150, exportQROptions 150, [DrawOp.drawImage (ImgTag.qrSymbol v) 0 0 150 150]⟩

/-- The canvas composed for a no-branding record with URLs `a` and `b` in a
fully succeeding environment. -/
def plainCanvasFor (a b : String) : Canvas :=
  ⟨1200, 1600,
    [DrawOp.fillRect 0 0 1200 1600 "#ffffff",
     DrawOp.drawImage (ImgTag.mainQR a) (1200 / 2 - mainQRSizeQ / 2) 100 mainQRSizeQ mainQRSizeQ,
     DrawOp.fillText mainCaption (1200 / 2) ((100 : ℚ) + mainQRSizeQ + 50) 32 "bold" "center",
     DrawOp.fillRect 50 ((100 : ℚ) + mainQRSizeQ + 50 + 80 + 30) (1200 - 100) 200 "#f8f9fa",
     DrawOp.drawImage (ImgTag.licenseQR b) 150
       ((100 : ℚ) + mainQRSizeQ + 50 + 80 + 30 + 200 / 2 - 75) 150 150,
     DrawOp.fillText licenseCaption (1200 - 150)
       ((100 : ℚ) + mainQRSizeQ + 50 + 80 + 30 + 200 / 2) 28 "bold" "right"],
    mainQRImgFor a, licQRImgFor b⟩

/-- The canvas composed for recPlain. -/
def canvasPlain : Canvas := plainCanvasFor "https://example.com/a" "https://example.com/b"

/-- The canvas composed for recPlainB. -/
def canvasPlainB : Canvas := plainCanvasFor "https://example.com/c" "https://example.com/d"

/-- The canvas composed for recFull (logo and name branding present). -/
def canvasFull : Canvas :=
  ⟨1200, 1600,
    [DrawOp.fillRect 0 0 1200 1600 "#ffffff",
     DrawOp.drawImage ImgTag.officeLogo (1200 / 2 - 120 / 2) 100 120 120,
     DrawOp.fillText officeCaption (1200 / 2) ((100 : ℚ) + 120 + 30) 32 "bold" "center",
     DrawOp.fillText "مكتب النور" (1200 / 2) ((100 : ℚ) + 120 + 30 + 40) 28 "normal" "center",
     DrawOp.drawImage (ImgTag.mainQR "https://example.com/a") (1200 / 2 - mainQRSizeQ / 2)
       ((100 : ℚ) + 120 + 30 + 40 + 80) mainQRSizeQ mainQRSizeQ,
     DrawOp.fillText mainCaption (1200 / 2) ((100 : ℚ) + 120 + 30 + 40 + 80 + mainQRSizeQ + 50)
       32 "bold" "center",
     DrawOp.fillRect 50 ((100 : ℚ) + 120 + 30 + 40 + 80 + mainQRSizeQ + 50 + 80 + 30)
       (1200 - 100) 200 "#f8f9fa",
     DrawOp.drawImage (ImgTag.licenseQR "https://example.com/b") 150
       ((100 : ℚ) + 120 + 30 + 40 + 80 + mainQRSizeQ + 50 + 80 + 30 + 200 / 2 - 75) 150 150,
     DrawOp.fillText licenseCaption (1200 - 150)
       ((100 : ℚ) + 120 + 30 + 40 + 80 + mainQRSizeQ + 50 + 80 + 30 + 200 / 2) 28 "bold" "right"],
    mainQRImgFor "https://example.com/a", licQRImgFor "https://example.com/b"⟩

/-- C1 counterexample: for a record whose officeLogo payload does not
decode, canvas composition does not succeed — the promise rejects with the
office-logo load error instead of resolving with a canvas. -/
theorem officeLogo_malformed_composition_rejects :
    createQRCanvas envOfficeLogoBad (some recBadLogo) =
      Except.error CanvasErr.officeLogoLoad := rfl

/-- C1 (amended): when the officeLogo payload is present but fails to
decode, composition rejects with the office-logo load error (no canvas is
produced), and each exporter catches the error, raises its user-facing
alert, downloads nothing, and clears the busy flag. -/
theorem officeLogo_malformed_composition_aborts (env : Env) (d : QRData)
    (hl : d.officeLogo ≠ "") (hd : env.officeLogoDecodes = false)
    (hctx : env.ctxOk = true) :
    createQRCanvas env (some d) = Except.error CanvasErr.officeLogoLoad ∧
    downloadAsImage env (some d) = ⟨some imageErrorAlert, none, none, ""⟩ ∧
    downloadAsPDF env (some d) = ⟨some pdfErrorAlert, none, none, ""⟩ := by
  have hbb : brandingBlock env d = Except.error CanvasErr.officeLogoLoad := by
    simp [brandingBlock, hl, hd]
  have hcc : createQRCanvas env (some d) = Except.error CanvasErr.officeLogoLoad := by
    rw [createQRCanvas_some, if_neg (by simp [hctx]), hbb]
  refine ⟨hcc, ?_, ?_⟩
  · simp only [downloadAsImage]
    rw [hcc]
  · simp only [downloadAsPDF]
    rw [hcc]

/-- C1 witness: the amended claim holds at the concrete bad-logo record. -/
theorem officeLogo_malformed_composition_aborts_witness :
    recBadLogo.officeLogo ≠ "" ∧ envOfficeLogoBad.officeLogoDecodes = false ∧
    envOfficeLogoBad.ctxOk = true ∧
    (createQRCanvas envOfficeLogoBad (some recBadLogo) =
       Except.error CanvasErr.officeLogoLoad ∧
     downloadAsImage envOfficeLogoBad (some recBadLogo) =
       ⟨some imageErrorAlert, none, none, ""⟩ ∧
     downloadAsPDF envOfficeLogoBad (some recBadLogo) =
       ⟨some pdfErrorAlert, none, none, ""⟩) :=
  ⟨by decide, rfl, rfl,
    officeLogo_malformed_composition_aborts envOfficeLogoBad recBadLogo (by decide) rfl rfl⟩

/-- C2: the export path's encoder options carry margin 1, dark #000000 and
light #FFFFFF, but no errorCorrectionLevel, so the library default M (not
the claimed level H) applies; the on-screen preview, by contrast, requests
level H. -/
theorem export_ec_level_defaults_to_medium :
    (exportQROptions 900).errorCorrectionLevel = none ∧
    effectiveECLevel (exportQROptions 900) = ECLevel.M ∧
    ¬ effectiveECLevel (exportQROptions 900) = ECLevel.H ∧
    previewQRLevel = ECLevel.H ∧
    (exportQROptions 900).margin = 1 ∧
    (exportQROptions 900).dark = "#000000" ∧
    (exportQROptions 900).light = "#FFFFFF" ∧
    (createQRCodeImage envAllOk "https://example.com/a" 900 true).map (fun i => i.encOpts) =
      Except.ok (exportQROptions 900) :=
  ⟨rfl, rfl, by decide, rfl, rfl, rfl, rfl, rfl⟩

/-- C3: every successfully composed canvas is 1200×1600; the details QR is
drawn with side mainQRSizeQ = 900 at the horizontally centring x-offset
(1200 − 900)/2; the license panel is a 200-high rectangle with 50-unit
horizontal insets drawn strictly below the details caption; and the license
QR inside it is exactly 150 units with no logo badge among its draw calls. -/
theorem composed_canvas_fixed_layout (env : Env) (d : QRData) (c : Canvas)
    (h : createQRCanvas env (some d) = Except.ok c) :
    c.width = 1200 ∧ c.height = 1600 ∧ mainQRSizeQ = 900 ∧
    (∃ y, DrawOp.drawImage (ImgTag.mainQR d.details) ((1200 - 900) / 2) y 900 900 ∈ c.ops) ∧
    (∃ yc yp, DrawOp.fillText mainCaption (1200 / 2) yc 32 "bold" "center" ∈ c.ops ∧
       DrawOp.fillRect 50 yp (1200 - 50 - 50) 200 "#f8f9fa" ∈ c.ops ∧
       DrawOp.drawImage (ImgTag.licenseQR d.license) 150 (yp + 200 / 2 - 75) 150 150 ∈ c.ops ∧
       yc < yp) ∧
    c.licenseQR = ⟨150, exportQROptions 150,
      [DrawOp.drawImage (ImgTag.qrSymbol d.license) 0 0 150 150]⟩ := by
  obtain ⟨brandOps, y1, hb, hm, hlq, hw, hh, hops⟩ := createQRCanvas_ok env d c h
  refine ⟨hw, hh, mainQRSizeQ_eq, ⟨y1, ?_⟩,
    ⟨y1 + 900 + 50, y1 + 900 + 50 + 80 + 30, ?_, ?_, ?_, by linarith⟩,
    createQRCodeImage_noLogo env d.license 150 c.licenseQR hlq⟩
  · rw [hops, mainQRSizeQ_eq,
      show ((1200 - 900 : ℚ)) / 2 = 1200 / 2 - 900 / 2 by norm_num]
    exact List.mem_cons_of_mem _ (List.mem_append_right _ (List.mem_cons_self _ _))
  · rw [hops, mainQRSizeQ_eq]
    simp
  · rw [hops, mainQRSizeQ_eq,
      show ((1200 - 50 - 50 : ℚ)) = 1200 - 100 by norm_num]
    simp
  · rw [hops, mainQRSizeQ_eq]
    simp

/-- C3 witness: the layout facts hold for the concrete no-branding record. -/
theorem composed_canvas_fixed_layout_witness :
    canvasPlain.width = 1200 ∧ canvasPlain.height = 1600 ∧ mainQRSizeQ = 900 ∧
    (∃ y, DrawOp.drawImage (ImgTag.mainQR recPlain.details) ((1200 - 900) / 2) y 900 900 ∈
      canvasPlain.ops) ∧
    (∃ yc yp, DrawOp.fillText mainCaption (1200 / 2) yc 32 "bold" "center" ∈ canvasPlain.ops ∧
       DrawOp.fillRect 50 yp (1200 - 50 - 50) 200 "#f8f9fa" ∈ canvasPlain.ops ∧
       DrawOp.drawImage (ImgTag.licenseQR recPlain.license) 150 (yp + 200 / 2 - 75) 150 150 ∈
         canvasPlain.ops ∧
       yc < yp) ∧
    canvasPlain.licenseQR = ⟨150, exportQROptions 150,
      [DrawOp.drawImage (ImgTag.qrSymbol recPlain.license) 0 0 150 150]⟩ :=
  composed_canvas_fixed_layout envAllOk recPlain canvasPlain rfl

/-- C4: with the logo overlay requested and the application logo loading,
the produced QR image consists of the QR symbol, a centred white rounded
badge of side s/5 with corner radius 0.2 × (s/5), and the logo drawn
centred at side (s/5) − 2 × (0.08 × (s/5)). -/
theorem logo_badge_geometry (env : Env) (v : String) (s : ℚ)
    (h1 : env.qrEncodeOk v = true) (h2 : env.qrImgDecodeOk = true)
    (h3 : env.appLogoLoads = true) (h4 : env.finalImgDecodeOk = true) :
    createQRCodeImage env v s true = Except.ok ⟨s, exportQROptions s,
      [DrawOp.drawImage (ImgTag.qrSymbol v) 0 0 s s,
       DrawOp.roundRect (s / 2 - (s / 5) / 2) (s / 2 - (s / 5) / 2) (s / 5) (s / 5)
         ((2 / 10) * (s / 5)) "#FFFFFF",
       DrawOp.drawImage ImgTag.appLogo
         (s / 2 - (s / 5 - 2 * ((8 / 100) * (s / 5))) / 2)
         (s / 2 - (s / 5 - 2 * ((8 / 100) * (s / 5))) / 2)
         (s / 5 - 2 * ((8 / 100) * (s / 5)))
         (s / 5 - 2 * ((8 / 100) * (s / 5)))]⟩ := by
  simp only [createQRCodeImage, h1, h2, h3, h4]
  norm_num
  constructor
  · ring
  · constructor <;> ring_nf

/-- C4 witness: the badge geometry holds at a concrete size and payload. -/
theorem logo_badge_geometry_witness :
    envAllOk.qrEncodeOk "u" = true ∧ envAllOk.qrImgDecodeOk = true ∧
    envAllOk.appLogoLoads = true ∧ envAllOk.finalImgDecodeOk = true ∧
    createQRCodeImage envAllOk "u" 10 true = Except.ok ⟨10, exportQROptions 10,
      [DrawOp.drawImage (ImgTag.qrSymbol "u") 0 0 10 10,
       DrawOp.roundRect (10 / 2 - (10 / 5) / 2) (10 / 2 - (10 / 5) / 2) (10 / 5) (10 / 5)
         ((2 / 10) * (10 / 5)) "#FFFFFF",
       DrawOp.drawImage ImgTag.appLogo
         (10 / 2 - (10 / 5 - 2 * ((8 / 100) * (10 / 5))) / 2)
         (10 / 2 - (10 / 5 - 2 * ((8 / 100) * (10 / 5))) / 2)
         (10 / 5 - 2 * ((8 / 100) * (10 / 5)))
         (10 / 5 - 2 * ((8 / 100) * (10 / 5)))]⟩ :=
  ⟨rfl, rfl, rfl, rfl, logo_badge_geometry envAllOk "u" 10 rfl rfl rfl rfl⟩

/-- C5: the PDF placement scales the bitmap by the uniform factor
min(pageW/w, pageH/h) × 0.95 and centres it, and the PDF exporter places a
successfully composed canvas at exactly that placement for the A4 page. -/
theorem pdf_placement_centered_scaled (pw ph w hgt : ℚ) (env : Env) (d : QRData) (c : Canvas)
    (hc : createQRCanvas env (some d) = Except.ok c) :
    pdfPlacement pw ph w hgt =
      ((pw - w * (min (pw / w) (ph / hgt) * (95 / 100))) / 2,
       (ph - hgt * (min (pw / w) (ph / hgt) * (95 / 100))) / 2,
       w * (min (pw / w) (ph / hgt) * (95 / 100)),
       hgt * (min (pw / w) (ph / hgt) * (95 / 100))) ∧
    downloadAsPDF env (some d) =
      ⟨none, some "pdf", some (pdfPlacement a4WidthMm a4HeightMm c.width c.height), ""⟩ := by
  refine ⟨rfl, ?_⟩
  simp only [downloadAsPDF]
  rw [hc]

/-- C5 witness: the placement facts hold at A4 dimensions and the concrete
no-branding canvas. -/
theorem pdf_placement_centered_scaled_witness :
    createQRCanvas envAllOk (some recPlain) = Except.ok canvasPlain ∧
    (pdfPlacement 210 297 1200 1600 =
      ((210 - 1200 * (min (210 / 1200) (297 / 1600) * (95 / 100))) / 2,
       (297 - 1600 * (min (210 / 1200) (297 / 1600) * (95 / 100))) / 2,
       1200 * (min (210 / 1200) (297 / 1600) * (95 / 100)),
       1600 * (min (210 / 1200) (297 / 1600) * (95 / 100))) ∧
     downloadAsPDF envAllOk (some recPlain) =
      ⟨none, some "pdf",
       some (pdfPlacement a4WidthMm a4HeightMm canvasPlain.width canvasPlain.height), ""⟩) :=
  ⟨rfl, pdf_placement_centered_scaled 210 297 1200 1600 envAllOk recPlain canvasPlain rfl⟩

/-- C6: when QR encoding fails for either payload, the composition promise
rejects with an encoding error (no partial canvas), and each exporter
catches it, raises its alert, downloads nothing, and clears the busy flag
so a retry remains possible. -/
theorem encoding_failure_propagates_and_alerts (env : Env) (d : QRData)
    (hctx : env.ctxOk = true)
    (hbrand : d.officeLogo = "" ∨ env.officeLogoDecodes = true)
    (hqi : env.qrImgDecodeOk = true) (hfi : env.finalImgDecodeOk = true)
    (henc : env.qrEncodeOk d.details = false ∨ env.qrEncodeOk d.license = false) :
    (∃ p, createQRCanvas env (some d) = Except.error (CanvasErr.encode p)) ∧
    downloadAsImage env (some d) = ⟨some imageErrorAlert, none, none, ""⟩ ∧
    downloadAsPDF env (some d) = ⟨some pdfErrorAlert, none, none, ""⟩ := by
  have hbb : ∃ ops y, brandingBlock env d = Except.ok (ops, y) := by
    cases hbv : brandingBlock env d with
    | ok p => exact ⟨p.1, p.2, rfl⟩
    | error e =>
      exfalso
      by_cases hl : d.officeLogo = ""
      · by_cases hn : d.officeName = "" <;> simp [brandingBlock, hl, hn] at hbv
      · have hd : env.officeLogoDecodes = true := hbrand.resolve_left hl
        by_cases hn : d.officeName = "" <;> simp [brandingBlock, hl, hn, hd] at hbv
  obtain ⟨bops, by1, hbok⟩ := hbb
  have hcc : ∃ p, createQRCanvas env (some d) = Except.error (CanvasErr.encode p) := by
    by_cases hde : env.qrEncodeOk d.details = false
    · have hmi : createQRCodeImage env d.details mainQRSizeQ true =
          Except.error (CanvasErr.encode d.details) := by
        simp [createQRCodeImage, hde]
      exact ⟨d.details, by rw [createQRCanvas_some, if_neg (by simp [hctx]), hbok, hmi]⟩
    · have hde2 : env.qrEncodeOk d.details = true := by
        cases hv : env.qrEncodeOk d.details
        · exact absurd hv hde
        · rfl
      have hle : env.qrEncodeOk d.license = false := henc.resolve_left (by simp [hde2])
      have hli : createQRCodeImage env d.license 150 false =
          Except.error (CanvasErr.encode d.license) := by
        simp [createQRCodeImage, hle]
      have hmi : ∃ img, createQRCodeImage env d.details mainQRSizeQ true = Except.ok img := by
        cases hm : createQRCodeImage env d.details mainQRSizeQ true with
        | ok img => exact ⟨img, rfl⟩
        | error e =>
          exfalso
          cases hal : env.appLogoLoads <;>
            simp [createQRCodeImage, hde2, hqi, hal, hfi] at hm
      obtain ⟨img, himg⟩ := hmi
      exact ⟨d.license, by rw [createQRCanvas_some, if_neg (by simp [hctx]), hbok, himg, hli]⟩
  obtain ⟨p, hp⟩ := hcc
  refine ⟨⟨p, hp⟩, ?_, ?_⟩
  · simp only [downloadAsImage]
    rw [hp]
  · simp only [downloadAsPDF]
    rw [hp]

/-- C6 witness: the encoding-failure behaviour holds at a concrete
environment whose encoder fails on every payload. -/
theorem encoding_failure_propagates_and_alerts_witness :
    envEncodeFails.ctxOk = true ∧
    (recPlain.officeLogo = "" ∨ envEncodeFails.officeLogoDecodes = true) ∧
    envEncodeFails.qrImgDecodeOk = true ∧ envEncodeFails.finalImgDecodeOk = true ∧
    (envEncodeFails.qrEncodeOk recPlain.details = false ∨
     envEncodeFails.qrEncodeOk recPlain.license = false) ∧
    ((∃ p, createQRCanvas envEncodeFails (some recPlain) =
        Except.error (CanvasErr.encode p)) ∧
     downloadAsImage envEncodeFails (some recPlain) =
       ⟨some imageErrorAlert, none, none, ""⟩ ∧
     downloadAsPDF envEncodeFails (some recPlain) =
       ⟨some pdfErrorAlert, none, none, ""⟩) :=
  ⟨rfl, Or.inl rfl, rfl, rfl, Or.inl rfl,
    encoding_failure_propagates_and_alerts envEncodeFails recPlain rfl (Or.inl rfl) rfl rfl
      (Or.inl rfl)⟩

/-- C7: when the application logo asset fails to load, the QR image still
resolves successfully, the white rounded badge is among its draw calls, and
no application-logo draw call appears in it. -/
theorem app_logo_failure_keeps_badge (env : Env) (v : String) (s : ℚ)
    (h1 : env.qrEncodeOk v = true) (h2 : env.qrImgDecodeOk = true)
    (h3 : env.appLogoLoads = false) (h4 : env.finalImgDecodeOk = true) :
    createQRCodeImage env v s true = Except.ok ⟨s, exportQROptions s,
      [DrawOp.drawImage (ImgTag.qrSymbol v) 0 0 s s,
       DrawOp.roundRect (s / 2 - (s / 5) / 2) (s / 2 - (s / 5) / 2) (s / 5) (s / 5)
         (s / 5 * (2 / 10)) "#FFFFFF"]⟩ ∧
    (∀ x y w hgt, DrawOp.drawImage ImgTag.appLogo x y w hgt ∉
      [DrawOp.drawImage (ImgTag.qrSymbol v) 0 0 s s,
       DrawOp.roundRect (s / 2 - (s / 5) / 2) (s / 2 - (s / 5) / 2) (s / 5) (s / 5)
         (s / 5 * (2 / 10)) "#FFFFFF"]) := by
  constructor
  · simp [createQRCodeImage, h1, h2, h3, h4]
  · intro x y w hgt
    simp

/-- C7 witness: the degraded-badge behaviour holds at a concrete size and
payload when only the application logo fails. -/
theorem app_logo_failure_keeps_badge_witness :
    envNoAppLogo.qrEncodeOk "u" = true ∧ envNoAppLogo.qrImgDecodeOk = true ∧
    envNoAppLogo.appLogoLoads = false ∧ envNoAppLogo.finalImgDecodeOk = true ∧
    (createQRCodeImage envNoAppLogo "u" 10 true = Except.ok ⟨10, exportQROptions 10,
      [DrawOp.drawImage (ImgTag.qrSymbol "u") 0 0 10 10,
       DrawOp.roundRect (10 / 2 - (10 / 5) / 2) (10 / 2 - (10 / 5) / 2) (10 / 5) (10 / 5)
         (10 / 5 * (2 / 10)) "#FFFFFF"]⟩ ∧
     (∀ x y w hgt, DrawOp.drawImage ImgTag.appLogo x y w hgt ∉
       [DrawOp.drawImage (ImgTag.qrSymbol "u") 0 0 10 10,
        DrawOp.roundRect (10 / 2 - (10 / 5) / 2) (10 / 2 - (10 / 5) / 2) (10 / 5) (10 / 5)
          (10 / 5 * (2 / 10)) "#FFFFFF"])) :=
  ⟨rfl, rfl, rfl, rfl, app_logo_failure_keeps_badge envNoAppLogo "u" 10 rfl rfl rfl rfl⟩

/-- C8: a record missing either URL fails the renderability predicate, the
page renders the incomplete-data screen instead of the main screen, and no
export (hence no composition call) can be issued from it; the same holds
when no record is stored at all. -/
theorem incomplete_record_never_composed (env : Env) (d : QRData) (asPdf : Bool)
    (h : d.details = "" ∨ d.license = "") :
    renderable (some d) = false ∧
    qrContentView false (some d) = View.incompleteData ∧
    pageExport env false (some d) asPdf = none ∧
    qrContentView false none = View.incompleteData ∧
    pageExport env false none asPdf = none := by
  have hr : renderable (some d) = false := by
    cases h with
    | inl h => simp [renderable, h]
    | inr h => simp [renderable, h]
  refine ⟨hr, ?_, ?_, rfl, rfl⟩
  · simp [qrContentView, hr]
  · simp [pageExport, qrContentView, hr]

/-- C8 witness: the refusal behaviour holds for the concrete record whose
details URL is empty. -/
theorem incomplete_record_never_composed_witness :
    (recNoDetails.details = "" ∨ recNoDetails.license = "") ∧
    (renderable (some recNoDetails) = false ∧
     qrContentView false (some recNoDetails) = View.incompleteData ∧
     pageExport envAllOk false (some recNoDetails) false = none ∧
     qrContentView false none = View.incompleteData ∧
     pageExport envAllOk false none false = none) :=
  ⟨Or.inl rfl, incomplete_record_never_composed envAllOk recNoDetails false (Or.inl rfl)⟩

/-- The office caption string differs from the details caption string. -/
theorem officeCaption_ne_mainCaption : officeCaption ≠ mainCaption := by decide

/-- The office caption string differs from the license caption string. -/
theorem officeCaption_ne_licenseCaption : officeCaption ≠ licenseCaption := by decide

/-- C9: two successful compositions in the same environment whose records
agree on office-name presence and office-logo presence yield canvases with
identical dimensions and identical positions for every draw call. -/
theorem identical_flags_identical_layout (env : Env) (r₁ r₂ : QRData) (c₁ c₂ : Canvas)
    (hn : r₁.officeName = "" ↔ r₂.officeName = "")
    (hl : r₁.officeLogo = "" ↔ r₂.officeLogo = "")
    (h₁ : createQRCanvas env (some r₁) = Except.ok c₁)
    (h₂ : createQRCanvas env (some r₂) = Except.ok c₂) :
    c₁.width = c₂.width ∧ c₁.height = c₂.height ∧
    c₁.ops.map opGeom = c₂.ops.map opGeom := by
  obtain ⟨b₁, y₁, hb₁, hm₁, hq₁, hw₁, hh₁, hops₁⟩ := createQRCanvas_ok env r₁ c₁ h₁
  obtain ⟨b₂, y₂, hb₂, hm₂, hq₂, hw₂, hh₂, hops₂⟩ := createQRCanvas_ok env r₂ c₂ h₂
  obtain ⟨hy₁, hbops₁, -⟩ := brandingBlock_ok env r₁ b₁ y₁ hb₁
  obtain ⟨hy₂, hbops₂, -⟩ := brandingBlock_ok env r₂ b₂ y₂ hb₂
  refine ⟨by rw [hw₁, hw₂], by rw [hh₁, hh₂], ?_⟩
  rw [hops₁, hops₂, hbops₁, hbops₂, hy₁, hy₂]
  by_cases hn1 : r₁.officeName = ""
  · by_cases hl1 : r₁.officeLogo = ""
    · have hn2 := hn.mp hn1
      have hl2 := hl.mp hl1
      simp [detailsQRy, opGeom, hn1, hl1, hn2, hl2]
    · have hn2 := hn.mp hn1
      have hl2 : ¬ r₂.officeLogo = "" := fun hcc => hl1 (hl.mpr hcc)
      simp [detailsQRy, opGeom, hn1, hl1, hn2, hl2]
  · by_cases hl1 : r₁.officeLogo = ""
    · have hn2 : ¬ r₂.officeName = "" := fun hcc => hn1 (hn.mpr hcc)
      have hl2 := hl.mp hl1
      simp [detailsQRy, opGeom, hn1, hl1, hn2, hl2]
    · have hn2 : ¬ r₂.officeName = "" := fun hcc => hn1 (hn.mpr hcc)
      have hl2 : ¬ r₂.officeLogo = "" := fun hcc => hl1 (hl.mpr hcc)
      simp [detailsQRy, opGeom, hn1, hl1, hn2, hl2]

/-- C9 witness: two concrete no-branding records with different URLs
compose to canvases with equal dimensions and equal draw-call positions. -/
theorem identical_flags_identical_layout_witness :
    (recPlain.officeName = "" ↔ recPlainB.officeName = "") ∧
    (recPlain.officeLogo = "" ↔ recPlainB.officeLogo = "") ∧
    createQRCanvas envAllOk (some recPlain) = Except.ok canvasPlain ∧
    createQRCanvas envAllOk (some recPlainB) = Except.ok canvasPlainB ∧
    (canvasPlain.width = canvasPlainB.width ∧ canvasPlain.height = canvasPlainB.height ∧
     canvasPlain.ops.map opGeom = canvasPlainB.ops.map opGeom) :=
  ⟨Iff.rfl, Iff.rfl, rfl, rfl,
    identical_flags_identical_layout envAllOk recPlain recPlainB canvasPlain canvasPlainB
      Iff.rfl Iff.rfl rfl rfl⟩

/-- C10: on every successfully composed canvas, the details QR sits at
vertical offset detailsQRy of the record; the office logo draw call is
present iff officeLogo is non-empty; the office caption and name lines are
present (the name 40 below the caption) iff officeName is non-empty; the
offset is 100, 250, 220 or 370 according to the branding flags, and it is
strictly larger whenever strictly more branding elements are present. -/
theorem branding_block_offsets (env : Env) (d : QRData) (c : Canvas)
    (h : createQRCanvas env (some d) = Except.ok c) :
    (DrawOp.drawImage (ImgTag.mainQR d.details) (1200 / 2 - mainQRSizeQ / 2) (detailsQRy d)
       mainQRSizeQ mainQRSizeQ ∈ c.ops) ∧
    ((DrawOp.drawImage ImgTag.officeLogo (1200 / 2 - 120 / 2) 100 120 120 ∈ c.ops) ↔
      d.officeLogo ≠ "") ∧
    ((∃ y, DrawOp.fillText officeCaption (1200 / 2) y 32 "bold" "center" ∈ c.ops ∧
        DrawOp.fillText d.officeName (1200 / 2) (y + 40) 28 "normal" "center" ∈ c.ops) ↔
      d.officeName ≠ "") ∧
    (d.officeLogo = "" → d.officeName = "" → detailsQRy d = 100) ∧
    (d.officeLogo ≠ "" → d.officeName = "" → detailsQRy d = 250) ∧
    (d.officeLogo = "" → d.officeName ≠ "" → detailsQRy d = 220) ∧
    (d.officeLogo ≠ "" → d.officeName ≠ "" → detailsQRy d = 370) ∧
    (∀ e₁ e₂ : QRData,
      (e₁.officeLogo ≠ "" → e₂.officeLogo ≠ "") →
      (e₁.officeName ≠ "" → e₂.officeName ≠ "") →
      ((e₁.officeLogo = "" ∧ e₂.officeLogo ≠ "") ∨
       (e₁.officeName = "" ∧ e₂.officeName ≠ "")) →
      detailsQRy e₁ < detailsQRy e₂) := by
  obtain ⟨brandOps, y1, hb, hm, hlq, hw, hh, hops⟩ := createQRCanvas_ok env d c h
  obtain ⟨hy, hbops, -⟩ := brandingBlock_ok env d brandOps y1 hb
  subst hy
  refine ⟨?_, ?_, ?_, ?_, ?_, ?_, ?_, ?_⟩
  · rw [hops]
    exact List.mem_cons_of_mem _ (List.mem_append_right _ (List.mem_cons_self _ _))
  · rw [hops, hbops]
    by_cases hl : d.officeLogo = "" <;> by_cases hn : d.officeName = "" <;> simp [hl, hn]
  · constructor
    · rintro ⟨y, hy1, hy2⟩
      by_cases hn : d.officeName = ""
      · exfalso
        rw [hops, hbops] at hy1
        by_cases hl : d.officeLogo = "" <;>
          simp [hl, hn, officeCaption_ne_mainCaption, officeCaption_ne_licenseCaption] at hy1
      · exact hn
    · intro hn
      refine ⟨100 + (if d.officeLogo ≠ "" then 150 else 0), ?_, ?_⟩
      · rw [hops, hbops]
        by_cases hl : d.officeLogo = "" <;> simp [hl, hn]
      · rw [hops, hbops]
        by_cases hl : d.officeLogo = "" <;> simp [hl, hn]
  · intro h1 h2
    norm_num [detailsQRy, h1, h2]
  · intro h1 h2
    norm_num [detailsQRy, h1, h2]
  · intro h1 h2
    norm_num [detailsQRy, h1, h2]
  · intro h1 h2
    norm_num [detailsQRy, h1, h2]
  · intro e₁ e₂ himp1 himp2 hstrict
    rcases hstrict with ⟨hs1, hs2⟩ | ⟨hs1, hs2⟩
    · by_cases hb1 : e₁.officeName = ""
      · by_cases hb2 : e₂.officeName = ""
        · norm_num [detailsQRy, hs1, hs2, hb1, hb2]
        · norm_num [detailsQRy, hs1, hs2, hb1, hb2]
      · have hb2 : e₂.officeName ≠ "" := himp2 hb1
        norm_num [detailsQRy, hs1, hs2, hb1, hb2]
    · by_cases ha1 : e₁.officeLogo = ""
      · by_cases ha2 : e₂.officeLogo = ""
        · norm_num [detailsQRy, hs1, hs2, ha1, ha2]
        · norm_num [detailsQRy, hs1, hs2, ha1, ha2]
      · have ha2 : e₂.officeLogo ≠ "" := himp1 ha1
        norm_num [detailsQRy, hs1, hs2, ha1, ha2]

/-- C10 witness: the branding offsets hold for the concrete record with
both a name and a logo. -/
theorem branding_block_offsets_witness :
    (DrawOp.drawImage (ImgTag.mainQR recFull.details) (1200 / 2 - mainQRSizeQ / 2)
       (detailsQRy recFull) mainQRSizeQ mainQRSizeQ ∈ canvasFull.ops) ∧
    ((DrawOp.drawImage ImgTag.officeLogo (1200 / 2 - 120 / 2) 100 120 120 ∈ canvasFull.ops) ↔
      recFull.officeLogo ≠ "") ∧
    ((∃ y, DrawOp.fillText officeCaption (1200 / 2) y 32 "bold" "center" ∈ canvasFull.ops ∧
        DrawOp.fillText recFull.officeName (1200 / 2) (y + 40) 28 "normal" "center" ∈
          canvasFull.ops) ↔
      recFull.officeName ≠ "") ∧
    (recFull.officeLogo = "" → recFull.officeName = "" → detailsQRy recFull = 100) ∧
    (recFull.officeLogo ≠ "" → recFull.officeName = "" → detailsQRy recFull = 250) ∧
    (recFull.officeLogo = "" → recFull.officeName ≠ "" → detailsQRy recFull = 220) ∧
    (recFull.officeLogo ≠ "" → recFull.officeName ≠ "" → detailsQRy recFull = 370) ∧
    (∀ e₁ e₂ : QRData,
      (e₁.officeLogo ≠ "" → e₂.officeLogo ≠ "") →
      (e₁.officeName ≠ "" → e₂.officeName ≠ "") →
      ((e₁.officeLogo = "" ∧ e₂.officeLogo ≠ "") ∨
       (e₁.officeName = "" ∧ e₂.officeName ≠ "")) →
      detailsQRy e₁ < detailsQRy e₂) :=
  branding_block_offsets envAllOk recFull canvasFull rfl

end QRGen
